import Mathlib

/-!
Verification development for the hermasstocktaker inventory application:
a shallow embedding of its real-time entry event broker, the inventory
mutation service, the streaming websocket handler, and the configuration
loader, with theorems checking the specification's properties against it.
-/

set_option maxHeartbeats 1000000

namespace HermasStock

/-- Modelled from the spec: the `EntryType` enum (`app/models/entry.py` is not
in the sources; only its members RAW, SFG, FG and its lowercase string values
`raw`, `sfg`, `fg` are visible from `entries.py` usage and the spec's wire
format `raw|sfg|fg`). -/
inductive EntryType where
  | RAW
  | SFG
  | FG
deriving DecidableEq, Repr

/-- The Python enum member's `.value` string. -/
def EntryType.value : EntryType → String
  | .RAW => "raw"
  | .SFG => "sfg"
  | .FG => "fg"

/-- Python `str.lower` (and, for the ASCII role names involved here,
`str.casefold`), embedded as per-character lowercasing. -/
def pyLower (s : String) : String :=
  String.mk (s.data.map Char.toLower)

/-- An inventory entry row, reduced to the fields the claims touch
(identifier, type classification, owning user); the remaining snapshot
fields of the source model are irrelevant to every claim and omitted. -/
structure Entry where
  id : String
  etype : EntryType
  user_id : String
deriving DecidableEq, Repr

/-- EventMessage: the discriminated payload pushed to subscriber queues,
with the four kinds from the spec's wire-message shapes. -/
inductive EventMessage where
  | connected
  | entry_created (entry : Entry)
  | entry_updated (entry : Entry)
  | entry_deleted (entry_id : String) (entry_type : String)
deriving DecidableEq, Repr

/-- Modelled from the spec: one subscriber of the broker — an id, the bounded
capacity fixed at subscribe time, and its FIFO queue (head = oldest). -/
structure Subscriber where
  sid : Nat
  cap : Nat
  queue : List EventMessage
deriving DecidableEq, Repr

/-- Modelled from the spec: the broker singleton's state (`app/core/realtime.py`
is not in the sources) — the configured queue size for future subscribers,
whether `set_loop` has bound the event loop, the registry of live subscriber
queues, and a fresh-id counter. -/
structure Broker where
  queue_size : Nat
  loop_set : Bool
  registry : List Subscriber
  next_id : Nat
deriving DecidableEq, Repr

/-- Modelled from the spec: the broker constructed empty at process start. -/
def Broker.init : Broker :=
  { queue_size := 0, loop_set := false, registry := [], next_id := 0 }

/-- Modelled from the spec: `configure(queue_size)` sets the bounded capacity
subsequently created subscriber queues will use; no effect on existing ones. -/
def Broker.configure (b : Broker) (queue_size : Nat) : Broker :=
  { b with queue_size := queue_size }

/-- Modelled from the spec: `set_loop(loop)` binds the owning event loop; only
the fact that a loop is bound matters for the delivery semantics. -/
def Broker.set_loop (b : Broker) : Broker :=
  { b with loop_set := true }

/-- Modelled from the spec: `subscribe()` creates a bounded queue with the
currently configured capacity, registers it, and returns its handle. -/
def Broker.subscribe (b : Broker) : Broker × Nat :=
  ({ b with
      registry := b.registry ++ [{ sid := b.next_id, cap := b.queue_size, queue := [] }],
      next_id := b.next_id + 1 },
   b.next_id)

/-- Modelled from the spec: `unsubscribe(subscriber)` removes the queue from
the registry if present; idempotent, never an error. -/
def Broker.unsubscribe (b : Broker) (sid : Nat) : Broker :=
  { b with registry := b.registry.filter (fun s => s.sid != sid) }

/-- Modelled from the spec: the non-blocking push with drop-oldest-on-overflow;
capacity 0 drops the event immediately with no buffering. -/
def pushDropOldest (cap : Nat) (q : List EventMessage) (m : EventMessage) :
    List EventMessage :=
  if cap = 0 then q
  else if cap ≤ q.length then q.drop 1 ++ [m]
  else q ++ [m]

/-- Modelled from the spec: delivery inside the loop context — iterate the
registry, pushing the message into every queue with drop-oldest. -/
def Broker.deliver (b : Broker) (m : EventMessage) : Broker :=
  { b with
    registry := b.registry.map (fun s => { s with queue := pushDropOldest s.cap s.queue m }) }

/-- Modelled from the spec: a `notify_*` call — if no loop has been bound yet
it is a silent no-op (the event is dropped); otherwise delivery is scheduled
onto the loop, which pushes into every registered queue. -/
def Broker.notify (b : Broker) (m : EventMessage) : Broker :=
  if b.loop_set then b.deliver m else b

/-- Modelled from the spec: `notify_entry_created(entry)`. -/
def Broker.notify_entry_created (b : Broker) (e : Entry) : Broker :=
  b.notify (EventMessage.entry_created e)

/-- Modelled from the spec: `notify_entry_updated(entry)`. -/
def Broker.notify_entry_updated (b : Broker) (e : Entry) : Broker :=
  b.notify (EventMessage.entry_updated e)

/-- Modelled from the spec: `notify_entry_deleted(entry_id, entry_type)`. -/
def Broker.notify_entry_deleted (b : Broker) (entry_id entry_type : String) : Broker :=
  b.notify (EventMessage.entry_deleted entry_id entry_type)

/-- Deliver a whole sequence of notifications in order. -/
def Broker.notifyAll (b : Broker) (msgs : List EventMessage) : Broker :=
  msgs.foldl Broker.notify b

/-- Draining a subscriber's queue: the buffered messages, oldest first. -/
def Broker.drain (b : Broker) (sid : Nat) : List EventMessage :=
  match b.registry.find? (fun s => s.sid == sid) with
  | some s => s.queue
  | none => []

theorem pushDropOldest_length_le (cap : Nat) (q : List EventMessage) (m : EventMessage)
    (h : q.length ≤ cap) : (pushDropOldest cap q m).length ≤ cap := by
  unfold pushDropOldest
  split
  · simpa using h
  · split
    · simp only [List.length_append, List.length_drop, List.length_cons, List.length_nil]
      omega
    · simp only [List.length_append, List.length_cons, List.length_nil]
      omega

theorem foldl_pushDropOldest_eq (cap : Nat) :
    ∀ (msgs q : List EventMessage), q.length ≤ cap →
      msgs.foldl (pushDropOldest cap) q = (q ++ msgs).drop (q.length + msgs.length - cap) := by
  intro msgs
  induction msgs with
  | nil =>
    intro q hq
    simp only [List.foldl_nil, List.append_nil, List.length_nil, Nat.add_zero]
    rw [Nat.sub_eq_zero_of_le hq, List.drop_zero]
  | cons m ms ih =>
    intro q hq
    simp only [List.foldl_cons]
    by_cases hc0 : cap = 0
    · subst hc0
      have hqnil : q = [] := List.eq_nil_of_length_eq_zero (Nat.le_zero.mp hq)
      subst hqnil
      have h1 : pushDropOldest 0 [] m = [] := by simp [pushDropOldest]
      rw [h1]
      have h2 := ih [] (by simp)
      rw [h2]
      simp only [List.nil_append, List.length_nil, Nat.zero_add, Nat.sub_zero,
        List.length_cons, List.drop_succ_cons]
    · by_cases hfull : cap ≤ q.length
      · have hqeq : q.length = cap := Nat.le_antisymm hq hfull
        obtain ⟨a, t, rfl⟩ : ∃ a t, q = a :: t := by
          cases q with
          | nil =>
            exfalso
            simp only [List.length_nil] at hqeq
            omega
          | cons a t => exact ⟨a, t, rfl⟩
        simp only [List.length_cons] at hqeq
        have hpush : pushDropOldest cap (a :: t) m = t ++ [m] := by
          unfold pushDropOldest
          rw [if_neg hc0, if_pos hfull]
          simp
        rw [hpush]
        have hlen : (t ++ [m]).length ≤ cap := by
          simp only [List.length_append, List.length_cons, List.length_nil]
          omega
        rw [ih _ hlen]
        have hL1 : (t ++ [m]).length + ms.length - cap = ms.length := by
          simp only [List.length_append, List.length_cons, List.length_nil]
          omega
        have hL2 : (a :: t).length + (m :: ms).length - cap = ms.length + 1 := by
          simp only [List.length_cons]
          omega
        rw [hL1, hL2, List.append_assoc, List.singleton_append, List.cons_append,
          List.drop_succ_cons]
      · have hlt : q.length < cap := Nat.lt_of_not_le hfull
        have hpush : pushDropOldest cap q m = q ++ [m] := by
          unfold pushDropOldest
          rw [if_neg hc0, if_neg hfull]
        rw [hpush]
        have hlen : (q ++ [m]).length ≤ cap := by
          simp only [List.length_append, List.length_cons, List.length_nil]
          omega
        rw [ih _ hlen]
        simp only [List.length_append, List.length_cons, List.length_nil,
          List.append_assoc, List.singleton_append]
        congr 1
        omega

theorem notifyAll_registry (msgs : List EventMessage) :
    ∀ (b : Broker), b.loop_set = true →
      (b.notifyAll msgs).registry
        = b.registry.map (fun s =>
            { s with queue := msgs.foldl (pushDropOldest s.cap) s.queue }) ∧
      (b.notifyAll msgs).loop_set = true := by
  induction msgs with
  | nil =>
    intro b hb
    constructor
    · have hfun : (fun s : Subscriber =>
          ({ s with queue := List.foldl (pushDropOldest s.cap) s.queue [] } : Subscriber)) = id := by
        funext s
        rfl
      show (Broker.notifyAll b []).registry = _
      rw [hfun]
      simp [Broker.notifyAll]
    · exact hb
  | cons m ms ih =>
    intro b hb
    have hstep : b.notify m = b.deliver m := by
      unfold Broker.notify
      rw [hb]
      simp
    have hloop : (b.deliver m).loop_set = true := by
      simp [Broker.deliver, hb]
    have hAll : Broker.notifyAll b (m :: ms) = Broker.notifyAll (b.deliver m) ms := by
      simp [Broker.notifyAll, List.foldl_cons, hstep]
    rw [hAll]
    obtain ⟨hreg, hls⟩ := ih (b.deliver m) hloop
    refine ⟨?_, hls⟩
    rw [hreg]
    simp only [Broker.deliver, List.map_map]
    rfl

/-! ## Inventory service (`app/services/inventory_service.py`)

The three mutation functions are embedded as pure functions over an in-memory
database (a list of entries), explicit fallibility flags for the external
database calls (`commit`, the guarded relationship refresh), and an emitted
trace of the observable actions (successful commit, `notify_*` calls) in the
order the Python function performs them synchronously on the calling thread. -/

/-- Exceptions the embedded service code can raise. -/
inductive PyError where
  | valueError (msg : String)
  | dbError
deriving DecidableEq, Repr

/-- Observable actions of a service call, in synchronous call order. -/
inductive Action where
  | commit
  | notify_created (e : Entry)
  | notify_updated (e : Entry)
  | notify_deleted (entry_id : String) (entry_type : String)
deriving DecidableEq, Repr

/-- Whether an action is one of the `notify_*` calls. -/
def Action.isNotify : Action → Bool
  | .commit => false
  | _ => true

/-- Number of `notify_*` calls in a trace. -/
def notifyCount (tr : List Action) : Nat :=
  (tr.filter Action.isNotify).length

/-- The in-memory database: the current entry rows. -/
abbrev DB := List Entry

/-- `db.get(Entry, entry_id)`. -/
def dbGet (db : DB) (entry_id : String) : Option Entry :=
  db.find? (fun e => e.id == entry_id)

/-- Modelled from the spec: the creation payload (`app/schemas/entry.py` is
not in the sources); only the identity-relevant fields are kept, and the
row identity the ORM would assign is carried in the payload. -/
structure EntryCreate where
  id : String
  etype : EntryType
deriving DecidableEq, Repr

/-- Modelled from the spec: a partial update payload (`exclude_unset` fields). -/
structure EntryUpdate where
  etype : Option EntryType
deriving DecidableEq, Repr

/-- The `setattr` loop of `update_entry` applied to an entry. -/
def applyUpdate (e : Entry) (p : EntryUpdate) : Entry :=
  { e with etype := p.etype.getD e.etype }

/-- `db.refresh(entry, attribute_names=["user"])`: an external call that may
raise; `ok = false` models it raising. -/
def db_refresh_user (ok : Bool) : Except PyError Unit :=
  if ok then Except.ok () else Except.error PyError.dbError

/-- The `try ... except Exception: pass` wrapper around the user refresh:
any raised exception is swallowed (`_ = getattr(entry, 'user', None)` has no
observable effect). -/
def swallowAll (r : Except PyError Unit) : Except PyError Unit :=
  match r with
  | .ok _ => Except.ok ()
  | .error _ => Except.ok ()

/-- `create_entry(db, payload, user_id)`: build the entry, add it, commit,
refresh, refresh the user relationship under a swallowing handler, then
`notify_entry_created(entry)`. Returns (result, new db, action trace). -/
def create_entry (db : DB) (payload : EntryCreate) (user_id : String)
    (commit_ok refresh_user_ok : Bool) :
    Except PyError Entry × DB × List Action :=
  let entry : Entry := { id := payload.id, etype := payload.etype, user_id := user_id }
  if commit_ok then
    match swallowAll (db_refresh_user refresh_user_ok) with
    | .ok _ =>
      (Except.ok entry, db ++ [entry], [Action.commit, Action.notify_created entry])
    | .error e =>
      (Except.error e, db ++ [entry], [Action.commit])
  else
    (Except.error PyError.dbError, db, [])

/-- `update_entry(db, entry_id, payload)`: raise `ValueError` when the entry
is missing, else apply the payload, commit, refresh, refresh the user
relationship under a swallowing handler, then `notify_entry_updated(entry)`. -/
def update_entry (db : DB) (entry_id : String) (payload : EntryUpdate)
    (commit_ok refresh_user_ok : Bool) :
    Except PyError Entry × DB × List Action :=
  match dbGet db entry_id with
  | none => (Except.error (PyError.valueError "Entry not found"), db, [])
  | some entry =>
    let entry2 := applyUpdate entry payload
    if commit_ok then
      let db2 := db.map (fun e => if e.id == entry_id then entry2 else e)
      match swallowAll (db_refresh_user refresh_user_ok) with
      | .ok _ =>
        (Except.ok entry2, db2, [Action.commit, Action.notify_updated entry2])
      | .error e =>
        (Except.error e, db2, [Action.commit])
    else
      (Except.error PyError.dbError, db, [])

/-- `delete_entry(db, entry_id)`: raise `ValueError` when the entry is
missing, else capture `str(entry.id)` and `str(entry.type.value).lower()`,
delete, commit, then `notify_entry_deleted(entry_id, entry_type)`. -/
def delete_entry (db : DB) (entry_id : String) (commit_ok : Bool) :
    Except PyError Unit × DB × List Action :=
  match dbGet db entry_id with
  | none => (Except.error (PyError.valueError "Entry not found"), db, [])
  | some entry =>
    let eid := entry.id
    let etype_s := pyLower (EntryType.value entry.etype)
    if commit_ok then
      (Except.ok (), db.filter (fun e => e.id != entry_id),
        [Action.commit, Action.notify_deleted eid etype_s])
    else
      (Except.error PyError.dbError, db, [])

/-! ## Configuration (`app/core/config.py` and `app/main.py`) -/

/-- Whitespace accepted around the digits by Python `int(str)`. -/
def isPySpace (c : Char) : Bool :=
  c = ' ' || c = '\t' || c = '\n' || c = '\r' || c = '\x0b' || c = '\x0c'

/-- Digit run of Python `int(str)` after the first digit: decimal digits with
single underscores allowed between digits. -/
def pyDigitsAux : List Char → Nat → Option Nat
  | [], acc => some acc
  | c :: rest, acc =>
    if c.isDigit then pyDigitsAux rest (10 * acc + (c.toNat - 48))
    else if c = '_' then
      match rest with
      | d :: _ => if d.isDigit then pyDigitsAux rest acc else none
      | [] => none
    else none

/-- Nonempty digit run (first character must be a digit). -/
def pyParseDigits (cs : List Char) : Option Nat :=
  match cs with
  | [] => none
  | c :: _ => if c.isDigit then pyDigitsAux cs 0 else none

/-- Python `int(str)` on decimal input: strip surrounding whitespace, an
optional sign, then a digit run; anything else raises `ValueError` (`none`). -/
def pyIntOfString (s : String) : Option Int :=
  let cs := ((s.data.dropWhile isPySpace).reverse.dropWhile isPySpace).reverse
  match cs with
  | '+' :: rest => (pyParseDigits rest).map (fun n => (n : Int))
  | '-' :: rest => (pyParseDigits rest).map (fun n => -(n : Int))
  | _ => (pyParseDigits cs).map (fun n => (n : Int))

/-- `Settings.__init__`'s queue-size computation: read
`ENTRY_EVENT_QUEUE_SIZE` with default string `512`, fall back to 512 on a
`ValueError` from `int()`, then clamp with `max(0, min(queue_size, 100000))`. -/
def entry_event_queue_size (env : Option String) : Int :=
  let queue_size_raw := env.getD "512"
  let queue_size := (pyIntOfString queue_size_raw).getD 512
  max 0 (min queue_size 100000)

/-- `configure_broker` from `app/main.py`: on startup, configure the broker
with the settings value and bind the running loop. -/
def configure_broker (env : Option String) (b : Broker) : Broker :=
  (b.configure (entry_event_queue_size env).toNat).set_loop

/-! ## Websocket authorization gate (`entry_stream` in `app/api/v1/entries.py`,
`is_admin_user` in `app/core/deps.py`) -/

/-- The user row as the gate sees it: active flag and the role's name
(`none` when the user has no role, so `getattr` yields the empty string). -/
structure WsUser where
  is_active : Bool
  role_name : Option String
deriving DecidableEq, Repr

/-- `is_admin_user` from `app/core/deps.py`:
`bool(role_name and role_name.casefold() == "admin")`, with `casefold`
embedded as ASCII lowercasing (role names here are ASCII). -/
def is_admin_user (u : WsUser) : Bool :=
  let role_name := u.role_name.getD ""
  role_name != "" && pyLower role_name == "admin"

/-- Hexadecimal digit as accepted by `int(hex, 16)`. -/
def isHexChar (c : Char) : Bool :=
  c.isDigit || ('a' ≤ c && c ≤ 'f') || ('A' ≤ c && c ≤ 'F')

/-- A curly brace, stripped from both ends by `uuid.UUID`. -/
def isBrace (c : Char) : Bool :=
  c = '\x7b' || c = '\x7d'

/-- Does the first list start with the second? -/
def charsStartsWith : List Char → List Char → Bool
  | _, [] => true
  | [], _ :: _ => false
  | c :: cs, p :: ps => c == p && charsStartsWith cs ps

/-- Left-to-right non-overlapping removal of a pattern, as Python
`str.replace(pat, "")`; the fuel argument (instantiated with the input
length) only makes the recursion structural. -/
def removePatternFuel (pat : List Char) : Nat → List Char → List Char
  | _, [] => []
  | 0, l => l
  | fuel + 1, c :: cs =>
    if charsStartsWith (c :: cs) pat && pat.length != 0 then
      removePatternFuel pat fuel (List.drop (pat.length - 1) cs)
    else
      c :: removePatternFuel pat fuel cs

/-- Python `s.replace(pat, "")` for a nonempty pattern. -/
def pyRemove (pat : String) (s : String) : String :=
  String.mk (removePatternFuel pat.data s.data.length s.data)

/-- `uuid.UUID(s)` of the Python standard library, reduced to its parse:
drop `urn:` and `uuid:` substrings, strip surrounding braces, drop dashes,
and require exactly 32 hex digits; returns the canonical lowercase hex that
identifies the row for `db.get`, or `none` on `ValueError`. -/
def uuid_normalize (s : String) : Option String :=
  let t1 := pyRemove "uuid:" (pyRemove "urn:" s)
  let t2 := String.mk (((t1.data.dropWhile isBrace).reverse.dropWhile isBrace).reverse)
  let hex := pyRemove "-" t2
  if hex.length = 32 && hex.data.all isHexChar then some (pyLower hex) else none

/-- Outcome of the pre-subscription part of the websocket handler. -/
inductive StreamGate where
  | close (code : Nat)
  | subscribed
deriving DecidableEq, Repr

/-- The authorization gate of `entry_stream`: session user id present and
truthy, parsed as a UUID, resolved to an existing, active, admin user —
otherwise `close(code=1008)` before `subscribe()` is ever called. -/
def entry_stream_gate (session_user_id : Option String)
    (db : String → Option WsUser) : StreamGate :=
  match session_user_id with
  | none => StreamGate.close 1008
  | some uid =>
    if uid = "" then StreamGate.close 1008
    else
      match uuid_normalize uid with
      | none => StreamGate.close 1008
      | some h =>
        match db h with
        | none => StreamGate.close 1008
        | some u =>
          if u.is_active = false then StreamGate.close 1008
          else if is_admin_user u = false then StreamGate.close 1008
          else StreamGate.subscribed

/-! ## Streaming serving loop (`entry_stream` in `app/api/v1/entries.py`)

The serving loop after `subscribe()` is embedded as a deterministic run over
a trace of wait resolutions: each element says which of the two awaited tasks
(the queue-message waiter or the peer-receive task) completed first at that
iteration's `asyncio.wait`, or that the await raised
(cancellation or another error). The run records the observable effects the
claims are about: forwarded messages, how the loop exited, the single
`unsubscribe` call of the `finally` block, how many receiver tasks were ever
created, whether the receiver task was cancelled/awaited in cleanup, whether
any still-pending task was cancelled inside the loop, whether a pending
queue-waiter task survives uncancelled at exit, and how many no-op cancels
were issued to already-completed waiter tasks. -/

/-- One resolution of the `asyncio.wait` inside the serving loop. -/
inductive WaitOutcome where
  | queueMsg (m : EventMessage) (send_ok : Bool)
  | peerFired
  | raised
deriving DecidableEq, Repr

/-- How the serving loop terminated. -/
inductive ExitKind where
  | peerClosed
  | disconnect
  | errorOrCancel
deriving DecidableEq, Repr

/-- Observable record of one terminated handler run. -/
structure StreamRun where
  forwarded : List EventMessage
  exit : ExitKind
  unsubscribe_calls : Nat
  receiver_created_count : Nat
  receiver_cancelled : Bool
  receiver_awaited : Bool
  receiver_cancelled_in_loop : Bool
  waiter_pending_at_exit : Bool
  completed_waiter_cancels : Nat
deriving DecidableEq, Repr

/-- Loop-exit data before the `finally` block runs. -/
structure LoopExit where
  forwarded : List EventMessage
  exit : ExitKind
  completed_waiter_cancels : Nat
  waiter_pending : Bool
deriving DecidableEq, Repr

/-- The `while True` body: on `peerFired` the code breaks with the waiter
still pending and uncancelled; on a successful forward it cancels the
already-completed waiter (a no-op) and loops, reusing the same receiver
task; on a send failure `WebSocketDisconnect` propagates to the handler's
`except`; on any other raise the loop unwinds with both tasks pending.
`none` means the trace ended with the handler still waiting. -/
def serve_loop : List WaitOutcome → List EventMessage → Nat → Option LoopExit
  | [], _, _ => none
  | WaitOutcome.peerFired :: _, acc, k =>
    some { forwarded := acc.reverse, exit := ExitKind.peerClosed,
           completed_waiter_cancels := k, waiter_pending := true }
  | WaitOutcome.raised :: _, acc, k =>
    some { forwarded := acc.reverse, exit := ExitKind.errorOrCancel,
           completed_waiter_cancels := k, waiter_pending := true }
  | WaitOutcome.queueMsg m true :: rest, acc, k => serve_loop rest (m :: acc) (k + 1)
  | WaitOutcome.queueMsg _ false :: _, acc, k =>
    some { forwarded := acc.reverse, exit := ExitKind.disconnect,
           completed_waiter_cancels := k, waiter_pending := false }

/-- The post-`subscribe()` part of `entry_stream`: send the `connected`
acknowledgment (whose failure raises `WebSocketDisconnect` before any
receiver task exists), run the serving loop, then the `finally` block —
exactly one `unsubscribe`, and cancel/await the receiver task if one was
created. -/
def entry_stream (connected_send_ok : Bool) (events : List WaitOutcome) :
    Option StreamRun :=
  if connected_send_ok then
    match serve_loop events [] 0 with
    | none => none
    | some le =>
      some { forwarded := le.forwarded, exit := le.exit, unsubscribe_calls := 1,
             receiver_created_count := 1, receiver_cancelled := true,
             receiver_awaited := true, receiver_cancelled_in_loop := false,
             waiter_pending_at_exit := le.waiter_pending,
             completed_waiter_cancels := le.completed_waiter_cancels }
  else
    some { forwarded := [], exit := ExitKind.disconnect, unsubscribe_calls := 1,
           receiver_created_count := 0, receiver_cancelled := false,
           receiver_awaited := false, receiver_cancelled_in_loop := false,
           waiter_pending_at_exit := false, completed_waiter_cancels := 0 }

/-! ## Shared concrete data for witnesses -/

/-- A concrete entry used in witnesses. -/
def entryA : Entry := { id := "a1", etype := EntryType.RAW, user_id := "u1" }

/-- A concrete entry used in witnesses. -/
def entryB : Entry := { id := "b1", etype := EntryType.SFG, user_id := "u1" }

/-- A concrete entry used in witnesses. -/
def entryC : Entry := { id := "c1", etype := EntryType.FG, user_id := "u2" }

/-! ## Claims about the broker (spec-modelled) -/

/-- C1: with capacity C and more than C notifications delivered before any
drain, a subscriber created after `configure C` and `set_loop` ends holding
exactly the most recent C messages in their original relative order (the
suffix of the notification sequence), and exactly C of them; the witness
instantiates the capacity-2 scenario where notifying A, B, C leaves [B, C]. -/
theorem C1_drop_oldest (C : Nat) (msgs : List EventMessage)
    (h : C < msgs.length) :
    Broker.drain
      (Broker.notifyAll (((Broker.init.configure C).set_loop).subscribe).1 msgs)
      (((Broker.init.configure C).set_loop).subscribe).2
      = msgs.drop (msgs.length - C)
    ∧ (Broker.drain
        (Broker.notifyAll (((Broker.init.configure C).set_loop).subscribe).1 msgs)
        (((Broker.init.configure C).set_loop).subscribe).2).length = C := by
  have hfold : List.foldl (pushDropOldest C) [] msgs = msgs.drop (msgs.length - C) := by
    have h2 := foldl_pushDropOldest_eq C msgs [] (by simp)
    simpa using h2
  obtain ⟨hreg, -⟩ := notifyAll_registry msgs
    (((Broker.init.configure C).set_loop).subscribe).1 rfl
  have hdrain :
      Broker.drain (Broker.notifyAll (((Broker.init.configure C).set_loop).subscribe).1 msgs)
        (((Broker.init.configure C).set_loop).subscribe).2
        = List.foldl (pushDropOldest C) [] msgs := by
    unfold Broker.drain
    rw [hreg]
    rfl
  refine ⟨?_, ?_⟩
  · rw [hdrain, hfold]
  · rw [hdrain, hfold, List.length_drop]
    omega

/-- Witness for C1: queue size 2, notifications A then B then C with no
draining in between — draining the subscriber yields exactly [B, C]. -/
theorem C1_drop_oldest_witness :
    2 < ([EventMessage.entry_created entryA, EventMessage.entry_created entryB,
          EventMessage.entry_created entryC] : List EventMessage).length
    ∧ Broker.drain
        (Broker.notifyAll (((Broker.init.configure 2).set_loop).subscribe).1
          [EventMessage.entry_created entryA, EventMessage.entry_created entryB,
           EventMessage.entry_created entryC])
        (((Broker.init.configure 2).set_loop).subscribe).2
        = [EventMessage.entry_created entryB, EventMessage.entry_created entryC] := by
  have h := C1_drop_oldest 2
    [EventMessage.entry_created entryA, EventMessage.entry_created entryB,
     EventMessage.entry_created entryC] (by decide)
  exact ⟨by decide, by simpa using h.1⟩

/-- C5: a `notify_*` call before `set_loop` is a total no-op — it cannot
throw, leaves the broker state unchanged (the event is dropped), and in the
spec's scenario (`notify_entry_deleted` before any `set_loop`, then
`set_loop` and `subscribe`) the later subscriber drains no messages. -/
theorem C5_pre_loop_noop (b : Broker) (m : EventMessage)
    (h : b.loop_set = false) :
    b.notify m = b
    ∧ ((((Broker.init.notify_entry_deleted "id-1" "raw").set_loop).subscribe).1.drain
        ((((Broker.init.notify_entry_deleted "id-1" "raw").set_loop).subscribe).2) = []) := by
  constructor
  · unfold Broker.notify
    rw [h]
    simp
  · rfl

/-- Witness for C5 at the empty broker and a concrete message. -/
theorem C5_pre_loop_noop_witness :
    Broker.init.notify EventMessage.connected = Broker.init
    ∧ ((((Broker.init.notify_entry_deleted "id-1" "raw").set_loop).subscribe).1.drain
        ((((Broker.init.notify_entry_deleted "id-1" "raw").set_loop).subscribe).2) = []) :=
  C5_pre_loop_noop Broker.init EventMessage.connected rfl

/-- C6: `unsubscribe` never raises (it is a total function), unsubscribing
twice equals unsubscribing once, unsubscribing a handle never subscribed
leaves the broker unchanged, and removal takes out exactly the handle's
queue: no subscriber with that handle remains and every other one does. -/
theorem C6_unsubscribe_idempotent (b b2 : Broker) (sid sid2 : Nat)
    (hmiss : b2.registry.all (fun s => s.sid != sid2) = true) :
    (b.unsubscribe sid).unsubscribe sid = b.unsubscribe sid
    ∧ b2.unsubscribe sid2 = b2
    ∧ (∀ s ∈ (b.unsubscribe sid).registry, s.sid ≠ sid)
    ∧ (∀ s ∈ b.registry, s.sid ≠ sid → s ∈ (b.unsubscribe sid).registry) := by
  refine ⟨?_, ?_, ?_, ?_⟩
  · unfold Broker.unsubscribe
    simp [List.filter_filter]
  · unfold Broker.unsubscribe
    rw [List.filter_eq_self.mpr]
    intro s hs
    exact (List.all_eq_true.mp hmiss) s hs
  · intro s hs
    unfold Broker.unsubscribe at hs
    simp only [List.mem_filter, bne_iff_ne, ne_eq] at hs
    exact hs.2
  · intro s hs hne
    unfold Broker.unsubscribe
    simp only [List.mem_filter, bne_iff_ne, ne_eq]
    exact ⟨hs, hne⟩

/-- Witness for C6: double removal of a live handle equals single removal,
and removal of a handle never subscribed changes nothing. -/
theorem C6_unsubscribe_idempotent_witness :
    ((((Broker.init.configure 2).set_loop).subscribe).1.unsubscribe 0).unsubscribe 0
      = (((Broker.init.configure 2).set_loop).subscribe).1.unsubscribe 0
    ∧ (((Broker.init.configure 2).set_loop).subscribe).1.unsubscribe 7
      = (((Broker.init.configure 2).set_loop).subscribe).1 := by
  have h := C6_unsubscribe_idempotent
    (((Broker.init.configure 2).set_loop).subscribe).1
    (((Broker.init.configure 2).set_loop).subscribe).1
    0 7 (by decide)
  exact ⟨h.1, h.2.1⟩

/-! ## Claims about the inventory service -/

/-- Whether an `Except` result is a success. -/
def exceptIsOk {α : Type} : Except PyError α → Bool
  | .ok _ => true
  | .error _ => false

theorem swallowAll_refresh_ok (ok : Bool) :
    swallowAll (db_refresh_user ok) = Except.ok () := by
  cases ok <;> rfl

/-- A concrete database with one entry, used in witnesses. -/
def dbA : DB := [entryA]

/-- A concrete creation payload used in witnesses. -/
def payloadA : EntryCreate := { id := "n1", etype := EntryType.FG }

/-- A concrete update payload used in witnesses. -/
def updA : EntryUpdate := { etype := some EntryType.SFG }

/-- C2: each of the three mutations performs its matching `notify_*` call
exactly once, in its own synchronous action trace, strictly after the
successful commit (the trace is exactly commit followed by one notify); a
mutation that fails — missing entry or failed commit — performs none. -/
theorem C2_notify_after_commit (db dbm : DB) (p : EntryCreate)
    (user_id entry_id entry_id_m : String) (upd : EntryUpdate) (ro : Bool)
    (e : Entry) (hfind : dbGet db entry_id = some e)
    (hmiss : dbGet dbm entry_id_m = none) :
    (create_entry db p user_id true ro).2.2
      = [Action.commit, Action.notify_created
          { id := p.id, etype := p.etype, user_id := user_id }]
    ∧ exceptIsOk (create_entry db p user_id true ro).1 = true
    ∧ notifyCount (create_entry db p user_id false ro).2.2 = 0
    ∧ (update_entry db entry_id upd true ro).2.2
      = [Action.commit, Action.notify_updated (applyUpdate e upd)]
    ∧ exceptIsOk (update_entry db entry_id upd true ro).1 = true
    ∧ notifyCount (update_entry db entry_id upd false ro).2.2 = 0
    ∧ exceptIsOk (update_entry dbm entry_id_m upd true ro).1 = false
    ∧ notifyCount (update_entry dbm entry_id_m upd true ro).2.2 = 0
    ∧ (delete_entry db entry_id true).2.2
      = [Action.commit, Action.notify_deleted e.id (pyLower (EntryType.value e.etype))]
    ∧ exceptIsOk (delete_entry db entry_id true).1 = true
    ∧ notifyCount (delete_entry db entry_id false).2.2 = 0
    ∧ exceptIsOk (delete_entry dbm entry_id_m true).1 = false
    ∧ notifyCount (delete_entry dbm entry_id_m true).2.2 = 0 := by
  refine ⟨?_, ?_, ?_, ?_, ?_, ?_, ?_, ?_, ?_, ?_, ?_, ?_, ?_⟩
  · simp [create_entry, swallowAll_refresh_ok]
  · simp [create_entry, swallowAll_refresh_ok, exceptIsOk]
  · simp [create_entry, notifyCount]
  · simp [update_entry, hfind, swallowAll_refresh_ok]
  · simp [update_entry, hfind, swallowAll_refresh_ok, exceptIsOk]
  · simp [update_entry, hfind, notifyCount]
  · simp [update_entry, hmiss, exceptIsOk]
  · simp [update_entry, hmiss, notifyCount]
  · simp [delete_entry, hfind]
  · simp [delete_entry, hfind, exceptIsOk]
  · simp [delete_entry, hfind, notifyCount]
  · simp [delete_entry, hmiss, exceptIsOk]
  · simp [delete_entry, hmiss, notifyCount]

/-- Witness for C2: concrete successful create and a concrete failing update
on an empty database. -/
theorem C2_notify_after_commit_witness :
    (create_entry dbA payloadA "u9" true true).2.2
      = [Action.commit, Action.notify_created
          { id := "n1", etype := EntryType.FG, user_id := "u9" }]
    ∧ exceptIsOk (update_entry ([] : DB) "missing" updA true true).1 = false
    ∧ notifyCount (update_entry ([] : DB) "missing" updA true true).2.2 = 0 := by
  have h := C2_notify_after_commit dbA ([] : DB) payloadA "u9" "a1" "missing" updA true
    entryA (by decide) (by decide)
  exact ⟨h.1, h.2.2.2.2.2.2.1, h.2.2.2.2.2.2.2.1⟩

/-- C9: when the guarded post-commit user-relationship refresh raises, the
exception is swallowed: `create_entry` and `update_entry` still succeed,
still notify exactly once, and behave identically to the run in which the
refresh succeeds. -/
theorem C9_refresh_failure_swallowed (db : DB) (p : EntryCreate)
    (user_id entry_id : String) (upd : EntryUpdate) (e : Entry)
    (hfind : dbGet db entry_id = some e) :
    exceptIsOk (create_entry db p user_id true false).1 = true
    ∧ notifyCount (create_entry db p user_id true false).2.2 = 1
    ∧ create_entry db p user_id true false = create_entry db p user_id true true
    ∧ exceptIsOk (update_entry db entry_id upd true false).1 = true
    ∧ notifyCount (update_entry db entry_id upd true false).2.2 = 1
    ∧ update_entry db entry_id upd true false = update_entry db entry_id upd true true := by
  refine ⟨?_, ?_, ?_, ?_, ?_, ?_⟩
  · simp [create_entry, swallowAll_refresh_ok, exceptIsOk]
  · simp [create_entry, swallowAll_refresh_ok, notifyCount, Action.isNotify]
  · simp [create_entry, swallowAll_refresh_ok]
  · simp [update_entry, hfind, swallowAll_refresh_ok, exceptIsOk]
  · simp [update_entry, hfind, swallowAll_refresh_ok, notifyCount, Action.isNotify]
  · simp [update_entry, hfind, swallowAll_refresh_ok]

/-- Witness for C9: a concrete create and update with the refresh raising. -/
theorem C9_refresh_failure_swallowed_witness :
    exceptIsOk (create_entry dbA payloadA "u9" true false).1 = true
    ∧ notifyCount (update_entry dbA "a1" updA true false).2.2 = 1 := by
  have h := C9_refresh_failure_swallowed dbA payloadA "u9" "a1" updA entryA (by decide)
  exact ⟨h.1, h.2.2.2.2.1⟩

/-- C7: a successful deletion notifies with exactly the entry's identifier
and the lowercasing of its type's enum value; that classification equals the
enum value itself (the values are already lowercase) and is one of `raw`,
`sfg`, `fg`. -/
theorem C7_delete_payload (db : DB) (entry_id : String) (e : Entry)
    (hfind : dbGet db entry_id = some e) :
    (delete_entry db entry_id true).2.2
      = [Action.commit,
         Action.notify_deleted e.id (pyLower (EntryType.value e.etype))]
    ∧ pyLower (EntryType.value e.etype) = EntryType.value e.etype
    ∧ (pyLower (EntryType.value e.etype) = "raw"
        ∨ pyLower (EntryType.value e.etype) = "sfg"
        ∨ pyLower (EntryType.value e.etype) = "fg") := by
  refine ⟨?_, ?_, ?_⟩
  · simp [delete_entry, hfind]
  · cases he : e.etype <;> decide
  · cases he : e.etype
    · left
      decide
    · right
      left
      decide
    · right
      right
      decide

/-- Witness for C7: deleting the concrete RAW entry notifies with its id and
classification `raw`. -/
theorem C7_delete_payload_witness :
    (delete_entry dbA "a1" true).2.2
      = [Action.commit, Action.notify_deleted "a1" "raw"] := by
  have h := C7_delete_payload dbA "a1" entryA (by decide)
  simpa [entryA, EntryType.value] using h.1

/-! ## Claim about the configuration -/

/-- C8: the configured subscriber-queue capacity is always an integer in
[0, 100000]: parsed values above 100000 clamp to 100000, negative parsed
values clamp to 0, an unset variable or one `int()` rejects falls back to
512; and the startup hook configures the broker with exactly this value and
binds the loop. -/
theorem C8_queue_size_clamped (env : Option String) (rbig rneg rbad : String)
    (vbig vneg : Int)
    (h1 : pyIntOfString rbig = some vbig) (h2 : 100000 < vbig)
    (h3 : pyIntOfString rneg = some vneg) (h4 : vneg < 0)
    (h5 : pyIntOfString rbad = none) :
    0 ≤ entry_event_queue_size env
    ∧ entry_event_queue_size env ≤ 100000
    ∧ entry_event_queue_size (some rbig) = 100000
    ∧ entry_event_queue_size (some rneg) = 0
    ∧ entry_event_queue_size (some rbad) = 512
    ∧ entry_event_queue_size none = 512
    ∧ (configure_broker env Broker.init).queue_size = (entry_event_queue_size env).toNat
    ∧ (configure_broker env Broker.init).loop_set = true := by
  refine ⟨?_, ?_, ?_, ?_, ?_, ?_, ?_, ?_⟩
  · show (0 : Int) ≤ max 0 (min ((pyIntOfString (env.getD "512")).getD 512) 100000)
    exact le_max_left 0 _
  · show max 0 (min ((pyIntOfString (env.getD "512")).getD 512) 100000) ≤ (100000 : Int)
    apply max_le
    · norm_num
    · exact min_le_right _ _
  · show max 0 (min ((pyIntOfString ((some rbig).getD "512")).getD 512) 100000) = (100000 : Int)
    rw [Option.getD_some, h1, Option.getD_some]
    omega
  · show max 0 (min ((pyIntOfString ((some rneg).getD "512")).getD 512) 100000) = (0 : Int)
    rw [Option.getD_some, h3, Option.getD_some]
    omega
  · show max 0 (min ((pyIntOfString ((some rbad).getD "512")).getD 512) 100000) = (512 : Int)
    rw [Option.getD_some, h5, Option.getD_none]
    omega
  · rfl
  · rfl
  · rfl

/-- Witness for C8: an overlarge, a negative, and a non-integer setting. -/
theorem C8_queue_size_clamped_witness :
    entry_event_queue_size (some "9999999") = 100000
    ∧ entry_event_queue_size (some "-3") = 0
    ∧ entry_event_queue_size (some "abc") = 512
    ∧ entry_event_queue_size none = 512 := by
  have h := C8_queue_size_clamped none "9999999" "-3" "abc" 9999999 (-3)
    (by decide) (by decide) (by decide) (by decide) (by decide)
  exact ⟨h.2.2.1, h.2.2.2.1, h.2.2.2.2.1, h.2.2.2.2.2.1⟩

/-! ## Claim about the websocket authorization gate -/

/-- C10: `subscribe()` is reached exactly when the session carries a nonempty
user id that parses as a UUID and resolves to an existing, active user whose
role name is `admin` case-insensitively; every other connection is closed
with code 1008 — the gate's only two outcomes. -/
theorem C10_admin_gate (session_user_id : Option String)
    (db : String → Option WsUser) :
    (entry_stream_gate session_user_id db = StreamGate.subscribed
      ↔ ∃ uid h u, session_user_id = some uid ∧ uid ≠ ""
          ∧ uuid_normalize uid = some h ∧ db h = some u
          ∧ u.is_active = true ∧ is_admin_user u = true)
    ∧ (entry_stream_gate session_user_id db = StreamGate.subscribed
        ∨ entry_stream_gate session_user_id db = StreamGate.close 1008) := by
  cases session_user_id with
  | none =>
    have hgate : entry_stream_gate none db = StreamGate.close 1008 := rfl
    refine ⟨⟨?_, ?_⟩, Or.inr hgate⟩
    · intro hc
      rw [hgate] at hc
      exact StreamGate.noConfusion hc
    · rintro ⟨uid, h, u, heq, -⟩
      exact Option.noConfusion heq
  | some uid =>
    by_cases he : uid = ""
    · subst he
      have hgate : entry_stream_gate (some "") db = StreamGate.close 1008 := by
        simp [entry_stream_gate]
      refine ⟨⟨?_, ?_⟩, Or.inr hgate⟩
      · intro hc
        rw [hgate] at hc
        exact StreamGate.noConfusion hc
      · rintro ⟨uid2, h, u, heq, hne, -⟩
        rw [Option.some.injEq] at heq
        exact (hne heq.symm).elim
    · cases hu : uuid_normalize uid with
      | none =>
        have hgate : entry_stream_gate (some uid) db = StreamGate.close 1008 := by
          simp [entry_stream_gate, he, hu]
        refine ⟨⟨?_, ?_⟩, Or.inr hgate⟩
        · intro hc
          rw [hgate] at hc
          exact StreamGate.noConfusion hc
        · rintro ⟨uid2, h, u, heq, hne, hnorm, -⟩
          rw [Option.some.injEq] at heq
          subst heq
          rw [hu] at hnorm
          exact Option.noConfusion hnorm
      | some hh =>
        cases hd : db hh with
        | none =>
          have hgate : entry_stream_gate (some uid) db = StreamGate.close 1008 := by
            simp [entry_stream_gate, he, hu, hd]
          refine ⟨⟨?_, ?_⟩, Or.inr hgate⟩
          · intro hc
            rw [hgate] at hc
            exact StreamGate.noConfusion hc
          · rintro ⟨uid2, h, u, heq, hne, hnorm, hdb, -⟩
            rw [Option.some.injEq] at heq
            subst heq
            rw [hu, Option.some.injEq] at hnorm
            subst hnorm
            rw [hd] at hdb
            exact Option.noConfusion hdb
        | some u =>
          by_cases hact : u.is_active = false
          · have hgate : entry_stream_gate (some uid) db = StreamGate.close 1008 := by
              simp [entry_stream_gate, he, hu, hd, hact]
            refine ⟨⟨?_, ?_⟩, Or.inr hgate⟩
            · intro hc
              rw [hgate] at hc
              exact StreamGate.noConfusion hc
            · rintro ⟨uid2, h, u2, heq, hne, hnorm, hdb, hac, -⟩
              rw [Option.some.injEq] at heq
              subst heq
              rw [hu, Option.some.injEq] at hnorm
              subst hnorm
              rw [hd, Option.some.injEq] at hdb
              subst hdb
              rw [hact] at hac
              exact Bool.noConfusion hac
          · have hact2 : u.is_active = true := by
              cases hb : u.is_active
              · exact absurd hb hact
              · rfl
            by_cases hadm : is_admin_user u = false
            · have hgate : entry_stream_gate (some uid) db = StreamGate.close 1008 := by
                simp [entry_stream_gate, he, hu, hd, hact2, hadm]
              refine ⟨⟨?_, ?_⟩, Or.inr hgate⟩
              · intro hc
                rw [hgate] at hc
                exact StreamGate.noConfusion hc
              · rintro ⟨uid2, h, u2, heq, hne, hnorm, hdb, hac, hadm2⟩
                rw [Option.some.injEq] at heq
                subst heq
                rw [hu, Option.some.injEq] at hnorm
                subst hnorm
                rw [hd, Option.some.injEq] at hdb
                subst hdb
                rw [hadm] at hadm2
                exact Bool.noConfusion hadm2
            · have hadm2 : is_admin_user u = true := by
                cases hb : is_admin_user u
                · exact absurd hb hadm
                · rfl
              have hgate : entry_stream_gate (some uid) db = StreamGate.subscribed := by
                simp [entry_stream_gate, he, hu, hd, hact2, hadm2]
              refine ⟨⟨?_, ?_⟩, Or.inl hgate⟩
              · intro _
                exact ⟨uid, hh, u, rfl, he, hu, hd, hact2, hadm2⟩
              · intro _
                exact hgate

/-- Witness data: an active admin user. -/
def adminUser : WsUser := { is_active := true, role_name := some "Admin" }

/-- Witness data: a session database holding the admin user under the
canonical hex of a fixed UUID. -/
def wsDb (h : String) : Option WsUser :=
  if h = "00000000000000000000000000000001" then some adminUser else none

/-- Witness for C10: a session with a valid UUID of an active admin reaches
`subscribe()`; an absent session id or a non-UUID id closes with 1008. -/
theorem C10_admin_gate_witness :
    entry_stream_gate (some "00000000-0000-0000-0000-000000000001") wsDb
      = StreamGate.subscribed
    ∧ entry_stream_gate none wsDb = StreamGate.close 1008
    ∧ entry_stream_gate (some "not-a-uuid") wsDb = StreamGate.close 1008 := by
  have h1 := C10_admin_gate (some "00000000-0000-0000-0000-000000000001") wsDb
  have h2 := C10_admin_gate none wsDb
  have h3 := C10_admin_gate (some "not-a-uuid") wsDb
  refine ⟨?_, ?_, ?_⟩
  · apply h1.1.mpr
    refine ⟨"00000000-0000-0000-0000-000000000001",
      "00000000000000000000000000000001", adminUser, rfl, by decide, by decide, ?_, rfl, ?_⟩
    · show wsDb "00000000000000000000000000000001" = some adminUser
      decide
    · decide
  · rcases h2.2 with hs | hc
    · obtain ⟨uid, h, u, heq, -⟩ := h2.1.mp hs
      exact Option.noConfusion heq
    · exact hc
  · rcases h3.2 with hs | hc
    · obtain ⟨uid, h, u, heq, hne, hnorm, -⟩ := h3.1.mp hs
      rw [Option.some.injEq] at heq
      subst heq
      rw [show uuid_normalize "not-a-uuid" = none from by decide] at hnorm
      exact Option.noConfusion hnorm
    · exact hc

/-! ## Claims about the streaming serving loop -/

theorem serve_loop_msgs (msgs : List EventMessage) :
    ∀ (acc : List EventMessage) (k : Nat),
      serve_loop ((msgs.map (fun m => WaitOutcome.queueMsg m true))
          ++ [WaitOutcome.peerFired]) acc k
        = some { forwarded := acc.reverse ++ msgs, exit := ExitKind.peerClosed,
                 completed_waiter_cancels := k + msgs.length, waiter_pending := true } := by
  induction msgs with
  | nil =>
    intro acc k
    simp [serve_loop]
  | cons m ms ih =>
    intro acc k
    show serve_loop (WaitOutcome.queueMsg m true ::
      ((ms.map (fun m => WaitOutcome.queueMsg m true)) ++ [WaitOutcome.peerFired])) acc k = _
    rw [show serve_loop (WaitOutcome.queueMsg m true ::
        ((ms.map (fun m => WaitOutcome.queueMsg m true)) ++ [WaitOutcome.peerFired])) acc k
        = serve_loop ((ms.map (fun m => WaitOutcome.queueMsg m true))
            ++ [WaitOutcome.peerFired]) (m :: acc) (k + 1) from rfl]
    rw [ih (m :: acc) (k + 1)]
    have h1 : (m :: acc).reverse ++ ms = acc.reverse ++ m :: ms := by
      simp
    have h2 : k + 1 + ms.length = k + (m :: ms).length := by
      simp only [List.length_cons]
      omega
    rw [h1, h2]

/-- C3: every terminating execution of the handler that reached
`subscribe()` — whether the loop exits by peer close, disconnect,
cancellation or another error — runs the `finally` cleanup: `unsubscribe` is
called exactly once, and the peer-receive task is cancelled and awaited
exactly when one was created (at most one ever is). -/
theorem C3_cleanup (ok : Bool) (evs : List WaitOutcome) (r : StreamRun)
    (h : entry_stream ok evs = some r) :
    r.unsubscribe_calls = 1
    ∧ r.receiver_created_count ≤ 1
    ∧ r.receiver_cancelled = (r.receiver_created_count == 1)
    ∧ r.receiver_awaited = (r.receiver_created_count == 1) := by
  unfold entry_stream at h
  cases ok with
  | false =>
    simp only [Bool.false_eq_true, if_false, Option.some.injEq] at h
    subst h
    refine ⟨rfl, Nat.zero_le 1, rfl, rfl⟩
  | true =>
    simp only [if_true] at h
    cases hsl : serve_loop evs [] 0 with
    | none =>
      rw [hsl] at h
      exact Option.noConfusion h
    | some le =>
      rw [hsl] at h
      simp only [Option.some.injEq] at h
      subst h
      refine ⟨rfl, Nat.le.refl, rfl, rfl⟩

/-- The run record of the immediate-peer-close execution. -/
def runPeerClose : StreamRun :=
  { forwarded := [], exit := ExitKind.peerClosed, unsubscribe_calls := 1,
    receiver_created_count := 1, receiver_cancelled := true,
    receiver_awaited := true, receiver_cancelled_in_loop := false,
    waiter_pending_at_exit := true, completed_waiter_cancels := 0 }

/-- Witness for C3: the run where the peer closes immediately. -/
theorem C3_cleanup_witness :
    runPeerClose.unsubscribe_calls = 1
    ∧ runPeerClose.receiver_created_count ≤ 1
    ∧ runPeerClose.receiver_cancelled = (runPeerClose.receiver_created_count == 1)
    ∧ runPeerClose.receiver_awaited = (runPeerClose.receiver_created_count == 1) :=
  C3_cleanup true [WaitOutcome.peerFired] runPeerClose (by decide)

/-- C4 counterexample: in the concrete run where one queue message resolves
and is forwarded and then the peer-receive wait fires, no still-pending task
is ever cancelled when the other wait resolves — the peer-receive task is
kept pending and reused when the queue wait resolves
(`receiver_cancelled_in_loop = false`), and the pending queue wait is left
uncancelled when the peer wait fires (`waiter_pending_at_exit = true`) —
refuting the claim that "the other outstanding wait task is cancelled" when
one of the two waits resolves. -/
theorem C4_counterexample :
    (entry_stream true
        [WaitOutcome.queueMsg EventMessage.connected true, WaitOutcome.peerFired]).map
        (fun r => (r.receiver_cancelled_in_loop, r.waiter_pending_at_exit))
      = some (false, true) := by
  decide

/-- C4 amended: per iteration, whichever wait resolves first is handled —
each queue message resolving before the peer event is forwarded in order and
the loop continues on the queue wait while the peer wait has not fired, and
the loop stops when the peer closes; no two peer reads ever race because a
single peer-receive task is created once and reused across iterations rather
than being cancelled and recreated; the only in-loop cancels are no-ops on
the already-completed queue waiter (one per forwarded message), and the
queue-wait task still pending when the peer wait fires is left uncancelled. -/
theorem C4_loop_behavior (msgs : List EventMessage) (r : StreamRun)
    (h : entry_stream true
        ((msgs.map (fun m => WaitOutcome.queueMsg m true)) ++ [WaitOutcome.peerFired])
        = some r) :
    r.forwarded = msgs
    ∧ r.exit = ExitKind.peerClosed
    ∧ r.receiver_created_count = 1
    ∧ r.receiver_cancelled_in_loop = false
    ∧ r.waiter_pending_at_exit = true
    ∧ r.completed_waiter_cancels = msgs.length := by
  unfold entry_stream at h
  simp only [if_true] at h
  rw [serve_loop_msgs msgs [] 0] at h
  simp only [Option.some.injEq] at h
  subst h
  refine ⟨by simp, rfl, rfl, rfl, rfl, by simp⟩

/-- The run record of the forward-one-message-then-peer-close execution. -/
def runOneMsg : StreamRun :=
  { forwarded := [EventMessage.connected], exit := ExitKind.peerClosed,
    unsubscribe_calls := 1, receiver_created_count := 1, receiver_cancelled := true,
    receiver_awaited := true, receiver_cancelled_in_loop := false,
    waiter_pending_at_exit := true, completed_waiter_cancels := 1 }

/-- Witness for C4 (amended): the run forwarding one message then closing. -/
theorem C4_loop_behavior_witness :
    entry_stream true
        [WaitOutcome.queueMsg EventMessage.connected true, WaitOutcome.peerFired]
      = some runOneMsg
    ∧ runOneMsg.forwarded = [EventMessage.connected]
    ∧ runOneMsg.exit = ExitKind.peerClosed
    ∧ runOneMsg.receiver_created_count = 1
    ∧ runOneMsg.receiver_cancelled_in_loop = false
    ∧ runOneMsg.waiter_pending_at_exit = true
    ∧ runOneMsg.completed_waiter_cancels = 1 := by
  have h := C4_loop_behavior [EventMessage.connected] runOneMsg (by decide)
  exact ⟨by decide, h.1, h.2.1, h.2.2.1, h.2.2.2.1, h.2.2.2.2.1, by simpa using h.2.2.2.2.2⟩

end HermasStock
